import Mathlib

/-!
Shallow embedding of src/editor/src/render/intersection.rs (abstreet editor,
intersection rendering): derived crosswalk and sidewalk-corner geometry,
the cycle-state renderer and the traffic-signal diagram panel.

Coordinates and durations (f64 in the source) are modelled as rationals.
Drawing calls are modelled as a list of draw commands; the GfxCtx coordinate
frame is modelled explicitly so that fork and unfork behaviour is visible.
Collaborator crates (geom, map_model, ezgui) that are outside the given
sources are modelled from the spec where their behaviour matters and kept
abstract (function fields) where only their interface matters.
-/

namespace AbStreet

/-- geom Pt2D, a 2D point; f64 coordinates modelled as rationals. -/
structure Pt2D where
  x : ℚ
  y : ℚ
deriving DecidableEq, Repr

/-- geom Line, a segment between two points. -/
structure Line where
  pt1 : Pt2D
  pt2 : Pt2D
deriving DecidableEq, Repr

/-- geom Line::reverse swaps the two endpoints. -/
def Line.reverse (l : Line) : Line := ⟨l.pt2, l.pt1⟩

/-- geom Polygon; only the point list matters for this embedding. -/
structure Polygon where
  pts : List Pt2D
deriving DecidableEq, Repr

/-- geom Polygon::new keeps the given points. -/
def Polygon.new (pts : List Pt2D) : Polygon := ⟨pts⟩

/-- Modelled from the spec: geom Polygon::rectangle_topleft (outside the given
sources) builds the axis-aligned rectangle with the given top-left corner,
width and height. -/
def Polygon.rectangle_topleft (top_left : Pt2D) (width height : ℚ) : Polygon :=
  ⟨[top_left, ⟨top_left.x + width, top_left.y⟩,
    ⟨top_left.x + width, top_left.y + height⟩, ⟨top_left.x, top_left.y + height⟩]⟩

/-- Sentinel standing for f64::MAX in the Bounds initialiser of the geom crate. -/
def f64_max : ℚ := 2 ^ 1023

/-- geom Bounds, an axis-aligned bounding box. -/
structure Bounds where
  min_x : ℚ
  min_y : ℚ
  max_x : ℚ
  max_y : ℚ
deriving DecidableEq, Repr

/-- geom Bounds::new starts from extreme sentinel values. -/
def Bounds.new : Bounds := ⟨f64_max, f64_max, -f64_max, -f64_max⟩

/-- geom Bounds::update widens the box to cover one more point. -/
def Bounds.update (b : Bounds) (pt : Pt2D) : Bounds :=
  ⟨min b.min_x pt.x, min b.min_y pt.y, max b.max_x pt.x, max b.max_y pt.y⟩

/-- geom Pt2D::center, the coordinate average of a point list. -/
def Pt2D.center (pts : List Pt2D) : Pt2D :=
  ⟨(pts.map Pt2D.x).sum / (pts.length : ℚ), (pts.map Pt2D.y).sum / (pts.length : ℚ)⟩

/-- One coloured piece of an ezgui Text; colors are identified by their
color-scheme registry name. -/
structure TextSpan where
  text : String
  color : Option String
deriving DecidableEq, Repr

/-- ezgui Text; only single-line texts are built in this module. -/
structure Text where
  spans : List TextSpan
deriving DecidableEq, Repr

/-- ezgui Text::from_line, a one-span line in the default color. -/
def Text.from_line (s : String) : Text := ⟨[⟨s, none⟩]⟩

/-- ezgui Text::append adds a span (the third, highlight argument of the
source method is never used here and is dropped). -/
def Text.append (t : Text) (s : String) (c : Option String) : Text :=
  ⟨t.spans ++ [⟨s, c⟩]⟩

/-- map_model TurnID: parent intersection, source lane, destination lane. -/
structure TurnID where
  parent : ℕ
  src : ℕ
  dst : ℕ
deriving DecidableEq, Repr

/-- map_model TurnType (the classifications used by this module). -/
inductive TurnType where
  | Crosswalk
  | SharedSidewalkCorner
  | Straight
  | RightTurn
  | LeftTurn
deriving DecidableEq, Repr

/-- map_model Turn: identity plus classification. -/
structure Turn where
  id : TurnID
  turn_type : TurnType
deriving DecidableEq, Repr

/-- Modelled from the spec: map_model Turn::between_sidewalks (outside the
given sources) holds for turns between two sidewalk lanes; the crosswalk and
shared-sidewalk-corner classifications are exactly the sidewalk-to-sidewalk
turns. -/
def Turn.between_sidewalks (t : Turn) : Bool :=
  decide (t.turn_type = TurnType.Crosswalk ∨ t.turn_type = TurnType.SharedSidewalkCorner)

/-- map_model Lane, reduced to the interface the spec names: first and last
geometric segment of the center line and the two endpoint intersections. -/
structure Lane where
  src_i : ℕ
  dst_i : ℕ
  first_line : Line
  last_line : Line
deriving DecidableEq, Repr

/-- map_model TurnPriority. -/
inductive TurnPriority where
  | Priority
  | Yield
  | Stop
deriving DecidableEq, Repr

/-- map_model Cycle: one timed phase of a traffic signal. -/
structure Cycle where
  parent : ℕ
  duration : ℚ
  priority_turns : List TurnID
  yield_turns : List TurnID
deriving DecidableEq, Repr

/-- Modelled from the spec: map_model Cycle::get_priority (outside the given
sources); a turn in the priority set is Priority, else a turn in the yield
set is Yield, else Stop. -/
def Cycle.get_priority (c : Cycle) (t : TurnID) : TurnPriority :=
  if t ∈ c.priority_turns then TurnPriority.Priority
  else if t ∈ c.yield_turns then TurnPriority.Yield
  else TurnPriority.Stop

/-- map_model ControlTrafficSignal: the ordered cycle list, plus the
controller query named by the spec, kept abstract. -/
structure TrafficSignal where
  cycles : List Cycle
  current_cycle_and_remaining_time : ℚ → Cycle × Option ℚ

/-- map_model IntersectionType. -/
inductive IntersectionType where
  | Border
  | StopSign
  | TrafficSignal
deriving DecidableEq, Repr

/-- map_model Intersection: footprint ring (first point repeated at the end)
and type. -/
structure Intersection where
  id : ℕ
  polygon : List Pt2D
  intersection_type : IntersectionType
deriving DecidableEq, Repr

/-- map_model LANE_THICKNESS (2.5 meters). -/
def LANE_THICKNESS : ℚ := 5 / 2

/-- The map topology interface consumed by this module.  Line::shift, the
perpendicular offset of a segment (geom crate, outside the given sources,
numerically involving a square root), is kept abstract as a field. -/
structure Map where
  get_l : ℕ → Lane
  get_i : ℕ → Intersection
  get_t : TurnID → Turn
  get_turns_in_intersection : ℕ → List Turn
  get_traffic_signal : ℕ → TrafficSignal
  shift : Line → ℚ → Line

/-- render DrawCrosswalk (its module is outside the given sources): the
crosswalk strip artifact tagged with the turn it was derived from. -/
structure DrawCrosswalk where
  id1 : TurnID
deriving DecidableEq, Repr

/-- render DrawCrosswalk::new remembers the identity of the source turn. -/
def DrawCrosswalk.new (t : Turn) : DrawCrosswalk := ⟨t.id⟩

/-- The GfxCtx coordinate frame: either a map-space frame given by a top-left
map point and a zoom, or the screen-space frame. -/
inductive Frame where
  | mapFrame (top_left : Pt2D) (zoom : ℚ)
  | screenFrame
deriving DecidableEq, Repr

/-- One drawing or frame operation issued through the GfxCtx / Canvas.
Colors are the color-scheme registry names resolved by cs.get_def. -/
inductive DrawCmd where
  | polygon (color : String) (p : Polygon)
  | crosswalkStrip (id : TurnID) (color : String)
  | turnFull (id : TurnID) (color : String)
  | turnDashed (id : TurnID) (color : String)
  | textMap (t : Text) (pt : Pt2D)
  | textScreen (t : Text) (pt : Pt2D)
  | forkCmd (top_left : Pt2D) (zoom : ℚ)
  | forkScreenspaceCmd
  | unforkCmd (restored : Frame)
deriving DecidableEq, Repr

/-- ezgui Canvas, reduced to the fields this module reads; text_dims is the
abstract text-measurement service (width, height). -/
structure Canvas where
  cam_zoom : ℚ
  window_width : ℚ
  text_dims : Text → ℚ × ℚ

/-- The simulation interface this module reads. -/
structure Sim where
  is_in_overtime : ℕ → Bool
  time : ℚ

/-- RenderingHints, reduced to the field this module reads. -/
structure Hints where
  suppress_traffic_signal_details : Option ℕ

/-- objects::Ctx, the bundle of collaborators passed to every draw call.
fmt_duration and fmt_elapsed stand for the Rust Display formatting of a
duration and of a float with one decimal (std formatting, outside the given
sources). -/
structure Ctx where
  map : Map
  sim : Sim
  canvas : Canvas
  hints : Hints
  fmt_duration : ℚ → String
  fmt_elapsed : ℚ → String

/-- Modelled from the spec: MIN_ZOOM_FOR_MARKINGS lives in render/mod.rs,
outside the given sources; only comparisons against it matter here. -/
def MIN_ZOOM_FOR_MARKINGS : ℚ := 1

/-- calculate_crosswalks (src/editor/src/render/intersection.rs lines 99-108):
keep a turn when it is a crosswalk and its source lane flows into this
intersection (the double-rendering filter). -/
def calculate_crosswalks (i : ℕ) (m : Map) : List DrawCrosswalk :=
  (m.get_turns_in_intersection i).filterMap (fun turn =>
    if turn.turn_type = TurnType.Crosswalk ∧ (m.get_l turn.id.src).dst_i = i then
      some (DrawCrosswalk.new turn)
    else none)

/-- calculate_corners (src/editor/src/render/intersection.rs lines 110-133):
for each shared-sidewalk-corner turn whose source lane flows into this
intersection, build the four-point corner polygon from the offset last
segment of the source lane and the offset first segment of the destination
lane. -/
def calculate_corners (i : ℕ) (m : Map) : List Polygon :=
  (m.get_turns_in_intersection i).filterMap (fun turn =>
    if turn.turn_type = TurnType.SharedSidewalkCorner then
      if (m.get_l turn.id.src).dst_i ≠ i then none
      else
        let l1 := m.get_l turn.id.src
        let l2 := m.get_l turn.id.dst
        let shared_pt1 := (m.shift l1.last_line (LANE_THICKNESS / 2)).pt2
        let pt1 := (m.shift l1.last_line.reverse (LANE_THICKNESS / 2)).pt1
        let pt2 := (m.shift l2.first_line.reverse (LANE_THICKNESS / 2)).pt2
        let shared_pt2 := (m.shift l2.first_line (LANE_THICKNESS / 2)).pt1
        some (Polygon.new [shared_pt1, pt1, pt2, shared_pt2])
    else none)

/-- The draw map stores one DrawIntersection per intersection, built by
DrawIntersection::new, whose crosswalks field is calculate_crosswalks
(src/editor/src/render/intersection.rs line 33); looking up the crosswalk
artifacts of intersection i therefore yields calculate_crosswalks. -/
def Ctx.draw_map_crosswalks (ctx : Ctx) (i : ℕ) : List DrawCrosswalk :=
  calculate_crosswalks i ctx.map

/-- draw_signal_cycle (src/editor/src/render/intersection.rs lines 135-161):
draw every crosswalk of the parent intersection that the cycle marks as
Priority, then the full path of every non-sidewalk priority turn (solid,
protected color), then of every non-sidewalk yield turn (dashed, yield
color). -/
def draw_signal_cycle (cycle : Cycle) (ctx : Ctx) : List DrawCmd :=
  ((Ctx.draw_map_crosswalks ctx cycle.parent).filterMap (fun crosswalk =>
    if cycle.get_priority crosswalk.id1 = TurnPriority.Priority then
      some (DrawCmd.crosswalkStrip crosswalk.id1 "crosswalk")
    else none))
  ++ (cycle.priority_turns.filterMap (fun t =>
      if (ctx.map.get_t t).between_sidewalks = false then
        some (DrawCmd.turnFull (ctx.map.get_t t).id
          "turns protected by traffic signal right now")
      else none))
  ++ (cycle.yield_turns.filterMap (fun t =>
      if (ctx.map.get_t t).between_sidewalks = false then
        some (DrawCmd.turnDashed (ctx.map.get_t t).id
          "turns allowed with yielding by traffic signal right now")
      else none))

/-- DrawIntersection (src/editor/src/render/intersection.rs lines 12-20). -/
structure DrawIntersection where
  id : ℕ
  polygon : Polygon
  crosswalks : List DrawCrosswalk
  sidewalk_corners : List Polygon
  center : Pt2D
  intersection_type : IntersectionType

/-- DrawIntersection::new (src/editor/src/render/intersection.rs lines 23-37):
the center drops the repeated closing point before averaging; crosswalks and
corners are derived once here. -/
def DrawIntersection.new (inter : Intersection) (m : Map) : DrawIntersection :=
  { center := Pt2D.center inter.polygon.dropLast
    id := inter.id
    polygon := Polygon.new inter.polygon
    crosswalks := calculate_crosswalks inter.id m
    sidewalk_corners := calculate_corners inter.id m
    intersection_type := inter.intersection_type }

/-- draw_traffic_signal (src/editor/src/render/intersection.rs lines 39-45):
draw the current cycle unless the simulation reports overtime. -/
def DrawIntersection.draw_traffic_signal (self : DrawIntersection) (ctx : Ctx) :
    List DrawCmd :=
  let signal := ctx.map.get_traffic_signal self.id
  if ctx.sim.is_in_overtime self.id = false then
    draw_signal_cycle (signal.current_cycle_and_remaining_time ctx.sim.time).1 ctx
  else []

/-- RenderOptions, reduced to the fields this module reads. -/
structure RenderOptions where
  color : Option String
  debug_mode : Bool

/-- Rust Iterator::enumerate, pairing elements with indices from n upward. -/
def enum_from (n : ℕ) : List α → List (ℕ × α)
  | [] => []
  | x :: xs => (n, x) :: enum_from (n + 1) xs

/-- Renderable::draw for DrawIntersection (src/editor/src/render/intersection.rs
lines 53-88): paint the footprint, then in debug mode one index label per
ring point after the first, otherwise at markings zoom the corners and
either the traffic-signal detail or the crosswalks. -/
def DrawIntersection.draw (self : DrawIntersection) (opts : RenderOptions)
    (ctx : Ctx) : List DrawCmd :=
  let color := opts.color.getD (match self.intersection_type with
    | IntersectionType.Border => "border intersection"
    | IntersectionType.StopSign => "stop sign intersection"
    | IntersectionType.TrafficSignal => "traffic signal intersection")
  DrawCmd.polygon color self.polygon ::
  (if opts.debug_mode = true then
    (enum_from 0 ((ctx.map.get_i self.id).polygon.drop 1)).map (fun p =>
      DrawCmd.textMap (Text.from_line (toString (p.1 + 1))) p.2)
  else if MIN_ZOOM_FOR_MARKINGS ≤ ctx.canvas.cam_zoom then
    (self.sidewalk_corners.map (fun corner => DrawCmd.polygon "sidewalk corner" corner))
    ++ (if self.intersection_type = IntersectionType.TrafficSignal then
          if ctx.hints.suppress_traffic_signal_details ≠ some self.id then
            DrawIntersection.draw_traffic_signal self ctx
          else []
        else self.crosswalks.map (fun crosswalk =>
          DrawCmd.crosswalkStrip crosswalk.id1 "crosswalk"))
  else [])

/-- The bounding box computed at the top of draw_signal_diagram
(src/editor/src/render/intersection.rs lines 173-184). -/
def intersectionBounds (ctx : Ctx) (i : ℕ) : Bounds :=
  ((ctx.map.get_i i).polygon).foldl Bounds.update Bounds.new

/-- The label list built by draw_signal_diagram
(src/editor/src/render/intersection.rs lines 188-215): one line per cycle;
the active cycle with a known remaining time shows elapsed/duration, or the
OVERTIME span in the alert color when the remaining time is negative. -/
def diagram_labels (ctx : Ctx) (cycles : List Cycle) (current_cycle : ℕ)
    (time_left : Option ℚ) : List Text :=
  (enum_from 0 cycles).map (fun p =>
    if p.1 = current_cycle ∧ time_left.isSome = true then
      if time_left.getD 0 < 0 then
        Text.append (Text.from_line ("Cycle " ++ toString (p.1 + 1) ++ ": "))
          "OVERTIME" (some "signal overtime")
      else
        Text.from_line ("Cycle " ++ toString (p.1 + 1) ++ ": "
          ++ ctx.fmt_elapsed (p.2.duration - time_left.getD 0) ++ "s / "
          ++ ctx.fmt_duration p.2.duration)
    else
      Text.from_line ("Cycle " ++ toString (p.1 + 1) ++ ": "
        ++ ctx.fmt_duration p.2.duration))

/-- Rust Iterator::max_by_key over the widths (the element and its key
coincide here): none on the empty list, else the maximum. -/
def list_max : List ℚ → Option ℚ
  | [] => none
  | w :: ws => some (ws.foldl max w)

/-- The body of the per-row loop of draw_signal_diagram
(src/editor/src/render/intersection.rs lines 249-271): fork into the row
cell, draw the cycle miniature, then place the row label in screen space to
the right of the miniature. -/
def diagram_row (ctx : Ctx) (top_left : Pt2D)
    (x1_screen y1_screen intersection_width intersection_height padding zoom : ℚ)
    (p : ℕ × (Text × Cycle)) : List DrawCmd :=
  DrawCmd.forkCmd
    ⟨top_left.x - x1_screen / zoom,
     top_left.y - y1_screen / zoom - intersection_height * (p.1 : ℚ)
       - padding * ((p.1 : ℚ) + 1)⟩ zoom
  :: (draw_signal_cycle p.2.2 ctx
      ++ [DrawCmd.textScreen p.2.1
            ⟨x1_screen + 10 + intersection_width * zoom,
             y1_screen + (padding + intersection_height) * (p.1 : ℚ) * zoom⟩])

/-- The outcome of one draw_signal_diagram call: the issued commands and,
when the call aborted (Rust panic), the diagnostic; commands issued before
the abort are kept. -/
structure DiagramResult where
  cmds : List DrawCmd
  panicked : Option String
deriving DecidableEq, Repr

/-- draw_signal_diagram (src/editor/src/render/intersection.rs lines 163-274):
build the labels, measure the widest, anchor the panel to the right window
edge, paint the background and the highlighted current row, then per row
fork into the row cell, draw the cycle miniature and the row label, and
finally unfork back to the frame saved by the screen-space fork.  The
unwrap of the maximum on an empty label list is a panic. -/
def draw_signal_diagram (i : ℕ) (current_cycle : ℕ) (time_left : Option ℚ)
    (y1_screen : ℚ) (g0 : Frame) (ctx : Ctx) : DiagramResult :=
  let padding : ℚ := 5
  let zoom : ℚ := 10
  let b := intersectionBounds ctx i
  let top_left : Pt2D := ⟨b.min_x, b.min_y⟩
  let intersection_width := b.max_x - b.min_x
  let intersection_height := b.max_y - b.min_y
  let cycles := (ctx.map.get_traffic_signal i).cycles
  let labels := diagram_labels ctx cycles current_cycle time_left
  match list_max (labels.map (fun l => (ctx.canvas.text_dims l).1)) with
  | none => { cmds := [], panicked := some "called unwrap on a None value" }
  | some label_length =>
    let total_screen_width := intersection_width * zoom + label_length + 10
    let x1_screen := ctx.canvas.window_width - total_screen_width
    let old_ctx := g0
    let header : List DrawCmd :=
      [DrawCmd.forkScreenspaceCmd,
       DrawCmd.polygon "signal editor panel"
         (Polygon.rectangle_topleft ⟨x1_screen, y1_screen⟩ total_screen_width
           ((padding + intersection_height) * (cycles.length : ℚ) * zoom)),
       DrawCmd.polygon "current cycle in signal editor panel"
         (Polygon.rectangle_topleft
           ⟨x1_screen,
            y1_screen + (padding + intersection_height) * (current_cycle : ℚ) * zoom⟩
           total_screen_width ((padding + intersection_height) * zoom))]
    let rows := (enum_from 0 (labels.zip cycles)).map
      (diagram_row ctx top_left x1_screen y1_screen intersection_width
        intersection_height padding zoom)
    { cmds := header ++ rows.flatten ++ [DrawCmd.unforkCmd old_ctx], panicked := none }

/-- The row label texts among a command list, in drawing order. -/
def screen_texts (cmds : List DrawCmd) : List Text :=
  cmds.filterMap (fun c => match c with
    | DrawCmd.textScreen t _ => some t
    | _ => none)

/-- Number of frame pushes (fork and fork_screenspace calls) in a command
list. -/
def fork_ops (cmds : List DrawCmd) : ℕ :=
  (cmds.filter (fun c => match c with
    | DrawCmd.forkCmd _ _ => true
    | DrawCmd.forkScreenspaceCmd => true
    | _ => false)).length

/-- Number of frame pops (unfork calls) in a command list. -/
def unfork_ops (cmds : List DrawCmd) : ℕ :=
  (cmds.filter (fun c => match c with
    | DrawCmd.unforkCmd _ => true
    | _ => false)).length

/-- The effect of one command on the current coordinate frame: fork installs
a map frame, fork_screenspace installs the screen frame, unfork restores the
frame it saved; drawing commands leave the frame alone. -/
def step_frame (f : Frame) : DrawCmd → Frame
  | DrawCmd.forkCmd tl z => Frame.mapFrame tl z
  | DrawCmd.forkScreenspaceCmd => Frame.screenFrame
  | DrawCmd.unforkCmd old => old
  | _ => f

/-- The coordinate frame left installed after replaying a command list. -/
def run_frame (g0 : Frame) (cmds : List DrawCmd) : Frame :=
  cmds.foldl step_frame g0

/-- The position of a map-space text label, none for other commands. -/
def text_map_pos : DrawCmd → Option Pt2D
  | DrawCmd.textMap _ pt => some pt
  | _ => none

/-- The maximum label pixel width of a signal diagram, zero for a signal
with no cycles. -/
def diagram_label_width (ctx : Ctx) (i current_cycle : ℕ)
    (time_left : Option ℚ) : ℚ :=
  (list_max ((diagram_labels ctx (ctx.map.get_traffic_signal i).cycles
      current_cycle time_left).map (fun l => (ctx.canvas.text_dims l).1))).getD 0

/-- The total panel width of a signal diagram: intersection width times the
fixed zoom factor, plus the maximum label width, plus the fixed margin. -/
def diagram_panel_width (ctx : Ctx) (i current_cycle : ℕ)
    (time_left : Option ℚ) : ℚ :=
  ((intersectionBounds ctx i).max_x - (intersectionBounds ctx i).min_x) * 10
    + diagram_label_width ctx i current_cycle time_left + 10

/-! ### Concrete fixtures for witnesses and counterexamples -/

/-- A small closed square footprint ring (first point repeated at the end). -/
def ring_sq : List Pt2D := [⟨0, 0⟩, ⟨2, 0⟩, ⟨2, 2⟩, ⟨0, 2⟩, ⟨0, 0⟩]

/-- A short horizontal segment. -/
def seg_a : Line := ⟨⟨0, 0⟩, ⟨1, 0⟩⟩

/-- A default lane. -/
def lane_dflt : Lane := ⟨0, 0, seg_a, seg_a⟩

/-- A concrete instantiation of the abstract perpendicular offset. -/
def shift_ex (l : Line) (w : ℚ) : Line :=
  ⟨⟨l.pt1.x, l.pt1.y + w⟩, ⟨l.pt2.x, l.pt2.y + w⟩⟩

/-- A map with no turns anywhere and an empty traffic signal. -/
def map_empty_sig : Map :=
  { get_l := fun _ => lane_dflt
    get_i := fun n => ⟨n, ring_sq, IntersectionType.TrafficSignal⟩
    get_t := fun tid => ⟨tid, TurnType.Straight⟩
    get_turns_in_intersection := fun _ => []
    get_traffic_signal := fun _ => ⟨[], fun _ => (⟨0, 0, [], []⟩, none)⟩
    shift := shift_ex }

/-- Wrap a map into a default drawing context. -/
def mk_ctx (m : Map) : Ctx :=
  { map := m
    sim := ⟨fun _ => false, 0⟩
    canvas := ⟨1, 800, fun _ => (50, 20)⟩
    hints := ⟨none⟩
    fmt_duration := fun _ => "d"
    fmt_elapsed := fun _ => "e" }

/-- A one-cycle traffic signal. -/
def cyc_a : Cycle := ⟨0, 10, [], []⟩

/-- A map whose signal has exactly one cycle and no turns. -/
def map_one_cycle : Map :=
  { map_empty_sig with get_traffic_signal := fun _ => ⟨[cyc_a], fun _ => (cyc_a, none)⟩ }

/-- The opposite-direction crosswalk pair at intersection 0: lane 1 flows
into intersection 0, lane 2 flows out of it. -/
def t1_c3 : Turn := ⟨⟨0, 1, 2⟩, TurnType.Crosswalk⟩

/-- The reverse turn of t1_c3. -/
def t2_c3 : Turn := ⟨⟨0, 2, 1⟩, TurnType.Crosswalk⟩

/-- A map holding exactly the crosswalk pair at intersection 0. -/
def map_c3 : Map :=
  { map_empty_sig with
    get_l := fun n => if n = 1 then ⟨0, 0, seg_a, seg_a⟩ else ⟨0, 1, seg_a, seg_a⟩
    get_turns_in_intersection := fun n => if n = 0 then [t1_c3, t2_c3] else [] }

/-- A shared-sidewalk-corner turn from lane 3 into lane 4 at intersection 0. -/
def t_c4 : Turn := ⟨⟨0, 3, 4⟩, TurnType.SharedSidewalkCorner⟩

/-- A map holding exactly that corner turn, with distinct lane segments. -/
def map_c4 : Map :=
  { map_empty_sig with
    get_l := fun n => if n = 3 then ⟨0, 0, seg_a, ⟨⟨1, 0⟩, ⟨2, 0⟩⟩⟩
                      else ⟨0, 1, ⟨⟨2, 1⟩, ⟨3, 1⟩⟩, seg_a⟩
    get_turns_in_intersection := fun n => if n = 0 then [t_c4] else [] }

/-- A second cycle, fifteen seconds long. -/
def cyc_b : Cycle := ⟨0, 15, [], []⟩

/-- A cycle that protects the crosswalk turn t1_c3. -/
def cyc_c7 : Cycle := ⟨0, 10, [t1_c3.id], []⟩

/-- A map in which every turn is a crosswalk, hence between sidewalks. -/
def map_c8 : Map :=
  { map_empty_sig with get_t := fun tid => ⟨tid, TurnType.Crosswalk⟩ }

/-- A cycle whose priority set holds the sidewalk-to-sidewalk turn. -/
def cyc_c8 : Cycle := ⟨0, 10, [⟨0, 1, 2⟩], []⟩

/-- A minimal footprint ring with two distinct vertices and the closing
repeat of the first. -/
def ring_c9 : List Pt2D := [⟨0, 0⟩, ⟨1, 0⟩, ⟨0, 0⟩]

/-- A map whose intersections carry the minimal ring. -/
def map_c9 : Map :=
  { map_empty_sig with get_i := fun n => ⟨n, ring_c9, IntersectionType.StopSign⟩ }

/-- The renderer for intersection 0 of map_c9. -/
def di_c9 : DrawIntersection := DrawIntersection.new (map_c9.get_i 0) map_c9

/-- Debug-mode render options without a color override. -/
def opts_dbg : RenderOptions := ⟨none, true⟩

/-- Plain render options: no color override, debug off. -/
def opts_plain : RenderOptions := ⟨none, false⟩

/-- A context over map_one_cycle whose simulation reports overtime
everywhere. -/
def ctx_c10 : Ctx := { mk_ctx map_one_cycle with sim := ⟨fun _ => true, 0⟩ }

/-- The renderer for intersection 0 of map_one_cycle. -/
def di_c10 : DrawIntersection :=
  DrawIntersection.new (map_one_cycle.get_i 0) map_one_cycle

/-- A map whose signal has the two cycles of the spec example
(durations 10 and 15). -/
def map_two_cycles : Map :=
  { map_empty_sig with
    get_traffic_signal := fun _ => ⟨[cyc_a, cyc_b], fun _ => (cyc_a, some 4)⟩ }

/-! ### Helper lemmas -/

theorem enum_from_length (n : ℕ) (l : List α) : (enum_from n l).length = l.length := by
  induction l generalizing n with
  | nil => rfl
  | cons x xs ih => simp [enum_from, ih]

theorem enum_from_get? (n : ℕ) (l : List α) (k : ℕ) :
    (enum_from n l).get? k = (l.get? k).map (fun x => (n + k, x)) := by
  induction l generalizing n k with
  | nil => simp [enum_from]
  | cons x xs ih =>
    cases k with
    | zero => simp [enum_from]
    | succ k =>
      simp only [enum_from, List.get?_cons_succ, ih (n + 1) k]
      cases xs.get? k <;> simp [Nat.add_comm, Nat.add_assoc, Nat.add_left_comm]

theorem enum_from_mem_of_get (n : ℕ) (l : List α) (k : ℕ) (hk : k < l.length) :
    (n + k, l.get ⟨k, hk⟩) ∈ enum_from n l := by
  induction l generalizing n k with
  | nil => exact absurd hk (Nat.not_lt_zero k)
  | cons x xs ih =>
    cases k with
    | zero => simp [enum_from]
    | succ k =>
      have := ih (n + 1) k (Nat.lt_of_succ_lt_succ hk)
      simp only [enum_from, List.get]
      right
      have harith : n + 1 + k = n + (k + 1) := by omega
      rwa [harith] at this

theorem enum_from_mem_shape {n : ℕ} {l : List α} {p : ℕ × α} (h : p ∈ enum_from n l) :
    p.2 ∈ l := by
  induction l generalizing n with
  | nil => simp [enum_from] at h
  | cons x xs ih =>
    simp only [enum_from, List.mem_cons] at h
    rcases h with h | h
    · subst h; simp
    · exact List.mem_cons_of_mem _ (ih h)

theorem diagram_labels_length (ctx : Ctx) (cycles : List Cycle) (cc : ℕ)
    (tl : Option ℚ) : (diagram_labels ctx cycles cc tl).length = cycles.length := by
  simp [diagram_labels, enum_from_length]

theorem list_max_isSome {l : List ℚ} (h : l ≠ []) : (list_max l).isSome = true := by
  cases l with
  | nil => exact absurd rfl h
  | cons w ws => simp [list_max]

/-- Every command issued by draw_signal_cycle is a crosswalk strip, a solid
turn path or a dashed turn path. -/
theorem draw_signal_cycle_shape (cycle : Cycle) (ctx : Ctx) :
    ∀ c ∈ draw_signal_cycle cycle ctx,
      (∃ id col, c = DrawCmd.crosswalkStrip id col) ∨
      (∃ id col, c = DrawCmd.turnFull id col) ∨
      (∃ id col, c = DrawCmd.turnDashed id col) := by
  intro c hc
  simp only [draw_signal_cycle, List.mem_append, List.mem_filterMap] at hc
  rcases hc with (⟨cw, _, hsome⟩ | ⟨t, _, hsome⟩) | ⟨t, _, hsome⟩
  · split at hsome
    · exact Or.inl ⟨_, _, (Option.some_inj.mp hsome).symm⟩
    · exact absurd hsome (by simp)
  · split at hsome
    · exact Or.inr (Or.inl ⟨_, _, (Option.some_inj.mp hsome).symm⟩)
    · exact absurd hsome (by simp)
  · split at hsome
    · exact Or.inr (Or.inr ⟨_, _, (Option.some_inj.mp hsome).symm⟩)
    · exact absurd hsome (by simp)

theorem screen_texts_signal_cycle (cycle : Cycle) (ctx : Ctx) :
    screen_texts (draw_signal_cycle cycle ctx) = [] := by
  apply List.filterMap_eq_nil_iff.mpr
  intro c hc
  rcases draw_signal_cycle_shape cycle ctx c hc with ⟨id, col, h⟩ | ⟨id, col, h⟩ | ⟨id, col, h⟩ <;>
    subst h <;> rfl

theorem signal_cycle_no_frame_ops (cycle : Cycle) (ctx : Ctx) :
    fork_ops (draw_signal_cycle cycle ctx) = 0 ∧
    unfork_ops (draw_signal_cycle cycle ctx) = 0 := by
  constructor <;>
  · simp only [fork_ops, unfork_ops, List.length_eq_zero, List.filter_eq_nil_iff]
    intro c hc
    rcases draw_signal_cycle_shape cycle ctx c hc with ⟨id, col, h⟩ | ⟨id, col, h⟩ | ⟨id, col, h⟩ <;>
      subst h <;> simp

theorem screen_texts_append (l1 l2 : List DrawCmd) :
    screen_texts (l1 ++ l2) = screen_texts l1 ++ screen_texts l2 :=
  List.filterMap_append l1 l2 _

theorem screen_texts_row_block (ctx : Ctx) (tl : Pt2D)
    (x1 y1 w h pad z : ℚ) (p : ℕ × (Text × Cycle)) :
    screen_texts (diagram_row ctx tl x1 y1 w h pad z p) = [p.2.1] := by
  have hcyc := screen_texts_signal_cycle p.2.2 ctx
  simp only [screen_texts, diagram_row, List.filterMap_cons, List.filterMap_append] at hcyc ⊢
  rw [hcyc]
  rfl

theorem screen_texts_rows (ctx : Ctx) (l : List (Text × Cycle)) (n : ℕ)
    (tl : Pt2D) (x1 y1 w h pad z : ℚ) :
    screen_texts (((enum_from n l).map (diagram_row ctx tl x1 y1 w h pad z)).flatten)
      = l.map Prod.fst := by
  induction l generalizing n with
  | nil => rfl
  | cons a as ih =>
    simp only [enum_from, List.map_cons, List.flatten_cons]
    rw [screen_texts_append, screen_texts_row_block, ih]
    rfl

/-- With at least one cycle, the maximum label width exists. -/
theorem diagram_label_max_some (ctx : Ctx) (i current_cycle : ℕ)
    (time_left : Option ℚ) (hk : (ctx.map.get_traffic_signal i).cycles ≠ []) :
    list_max ((diagram_labels ctx (ctx.map.get_traffic_signal i).cycles
        current_cycle time_left).map (fun l => (ctx.canvas.text_dims l).1))
      = some (diagram_label_width ctx i current_cycle time_left) := by
  have hlen : (diagram_labels ctx (ctx.map.get_traffic_signal i).cycles
      current_cycle time_left).length = (ctx.map.get_traffic_signal i).cycles.length :=
    diagram_labels_length _ _ _ _
  have hne : (diagram_labels ctx (ctx.map.get_traffic_signal i).cycles
      current_cycle time_left).map (fun l => (ctx.canvas.text_dims l).1) ≠ [] := by
    intro h0
    apply hk
    have := congrArg List.length h0
    simp only [List.length_map, hlen, List.length_nil] at this
    exact List.length_eq_zero.mp this
  obtain ⟨L, hL⟩ := Option.isSome_iff_exists.mp (list_max_isSome hne)
  rw [hL, diagram_label_width, hL]
  rfl

/-- The full command list of a non-panicking draw_signal_diagram call. -/
theorem draw_signal_diagram_eq (i current_cycle : ℕ) (time_left : Option ℚ)
    (y1_screen : ℚ) (g0 : Frame) (ctx : Ctx)
    (hk : (ctx.map.get_traffic_signal i).cycles ≠ []) :
    draw_signal_diagram i current_cycle time_left y1_screen g0 ctx =
      { cmds :=
          [DrawCmd.forkScreenspaceCmd,
           DrawCmd.polygon "signal editor panel"
             (Polygon.rectangle_topleft
               ⟨ctx.canvas.window_width - diagram_panel_width ctx i current_cycle time_left,
                y1_screen⟩
               (diagram_panel_width ctx i current_cycle time_left)
               ((5 + ((intersectionBounds ctx i).max_y - (intersectionBounds ctx i).min_y))
                 * ((ctx.map.get_traffic_signal i).cycles.length : ℚ) * 10)),
           DrawCmd.polygon "current cycle in signal editor panel"
             (Polygon.rectangle_topleft
               ⟨ctx.canvas.window_width - diagram_panel_width ctx i current_cycle time_left,
                y1_screen
                  + (5 + ((intersectionBounds ctx i).max_y - (intersectionBounds ctx i).min_y))
                    * (current_cycle : ℚ) * 10⟩
               (diagram_panel_width ctx i current_cycle time_left)
               ((5 + ((intersectionBounds ctx i).max_y - (intersectionBounds ctx i).min_y)) * 10))]
          ++ ((enum_from 0 ((diagram_labels ctx (ctx.map.get_traffic_signal i).cycles
                current_cycle time_left).zip (ctx.map.get_traffic_signal i).cycles)).map
              (diagram_row ctx
                ⟨(intersectionBounds ctx i).min_x, (intersectionBounds ctx i).min_y⟩
                (ctx.canvas.window_width - diagram_panel_width ctx i current_cycle time_left)
                y1_screen
                ((intersectionBounds ctx i).max_x - (intersectionBounds ctx i).min_x)
                ((intersectionBounds ctx i).max_y - (intersectionBounds ctx i).min_y)
                5 10)).flatten
          ++ [DrawCmd.unforkCmd g0]
        panicked := none } := by
  have hL := diagram_label_max_some ctx i current_cycle time_left hk
  simp only [draw_signal_diagram, hL, diagram_panel_width]

/-! ### Claim C1 -/

/-- Claim C1, as stated, is false: with an empty cycle list the call does not
return normally; at this concrete input draw_signal_diagram aborts (the
unwrap of the maximum label width of no labels). -/
theorem empty_cycles_cx :
    (draw_signal_diagram 0 0 none 0 Frame.screenFrame (mk_ctx map_empty_sig)).panicked
      ≠ none := by decide

/-- Claim C1 (amended): for every intersection whose traffic signal has an
empty cycle list, draw_signal_diagram aborts at the maximum-label-width
computation before issuing any drawing command, instead of rendering an
empty panel. -/
theorem empty_cycles_panics (i current_cycle : ℕ) (time_left : Option ℚ)
    (y1_screen : ℚ) (g0 : Frame) (ctx : Ctx)
    (h : (ctx.map.get_traffic_signal i).cycles = []) :
    (draw_signal_diagram i current_cycle time_left y1_screen g0 ctx).panicked ≠ none ∧
    (draw_signal_diagram i current_cycle time_left y1_screen g0 ctx).cmds = [] := by
  simp [draw_signal_diagram, diagram_labels, h, enum_from, list_max]

/-- Witness for C1 at a concrete input. -/
theorem empty_cycles_panics_witness :
    ((mk_ctx map_empty_sig).map.get_traffic_signal 0).cycles = [] ∧
    ((draw_signal_diagram 0 0 none 0 Frame.screenFrame (mk_ctx map_empty_sig)).panicked
        ≠ none ∧
     (draw_signal_diagram 0 0 none 0 Frame.screenFrame (mk_ctx map_empty_sig)).cmds
        = []) :=
  ⟨by decide,
   empty_cycles_panics 0 0 none 0 Frame.screenFrame (mk_ctx map_empty_sig) (by decide)⟩

/-! ### Claim C2 -/

/-- Claim C2, as stated, is false: at this concrete one-cycle input, one
draw_signal_diagram call issues two frame pushes (the screen-space fork and
one per-row fork) but only one pop. -/
theorem fork_unfork_count_cx :
    fork_ops (draw_signal_diagram 0 0 none 0 Frame.screenFrame
        (mk_ctx map_one_cycle)).cmds = 2 ∧
    unfork_ops (draw_signal_diagram 0 0 none 0 Frame.screenFrame
        (mk_ctx map_one_cycle)).cmds = 1 ∧
    fork_ops (draw_signal_diagram 0 0 none 0 Frame.screenFrame
        (mk_ctx map_one_cycle)).cmds ≠
      unfork_ops (draw_signal_diagram 0 0 none 0 Frame.screenFrame
        (mk_ctx map_one_cycle)).cmds := by decide

/-- Claim C2 (amended): the per-row forks replace the current frame rather
than nesting, and the single final unfork restores the frame saved by the
screen-space fork, so the frame installed when a draw_signal_diagram call
returns is always the entry frame (also on the empty-cycle abort, which
happens before any frame operation); the push count (cycles plus one) does
not equal the pop count (one), but the frame state is balanced. -/
theorem diagram_restores_frame (i current_cycle : ℕ) (time_left : Option ℚ)
    (y1_screen : ℚ) (g0 : Frame) (ctx : Ctx) :
    run_frame g0 (draw_signal_diagram i current_cycle time_left y1_screen g0 ctx).cmds
      = g0 := by
  simp only [draw_signal_diagram]
  split
  · rfl
  · simp [run_frame, List.foldl_append, step_frame]

/-! ### Claim C3 -/

theorem length_filter_filterMap_if {α β : Type} [DecidableEq β] (l : List α)
    (p : α → Prop) [DecidablePred p] (f : α → β) (r : β → Bool) :
    ((l.filterMap (fun a => if p a then some (f a) else none)).filter r).length
      = l.countP (fun a => decide (p a) && r (f a)) := by
  induction l with
  | nil => rfl
  | cons a as ih =>
    simp only [List.filterMap_cons, List.countP_cons]
    by_cases hp : p a
    · rw [if_pos hp]
      cases hr : r (f a)
      · simp [List.filter_cons, hr, ih, hp]
      · simp [List.filter_cons, hr, ih, hp]
    · rw [if_neg hp]
      simp [ih, hp]

theorem countP_eq_count_of_iff {α : Type} [DecidableEq α] (l : List α)
    (q : α → Bool) (x : α) (h : ∀ a ∈ l, q a = true ↔ a = x) :
    l.countP q = l.count x := by
  induction l with
  | nil => rfl
  | cons a as ih =>
    simp only [List.countP_cons, List.count_cons]
    rw [ih (fun b hb => h b (List.mem_cons_of_mem a hb))]
    have hiff := h a (List.mem_cons_self a as)
    by_cases hax : a = x
    · have hq : q a = true := hiff.mpr hax
      subst hax
      simp [hq]
    · have hq : ¬ q a = true := fun hqa => hax (hiff.mp hqa)
      have hxa : ¬ x = a := fun hxa => hax hxa.symm
      simp [hq, hxa, hax]

/-- Claim C3: calculate_crosswalks includes a turn exactly when it is a
crosswalk whose source lane flows into this intersection; for a pair of
opposite-direction crosswalk turns over the same strip (each one the reverse
of the other, with exactly one of the two source lanes terminating at the
intersection) exactly one crosswalk artifact is produced. -/
theorem crosswalk_dedup (m : Map) (i : ℕ) (t1 t2 : Turn)
    (hpair1 : t2.id.src = t1.id.dst) (hpair2 : t2.id.dst = t1.id.src)
    (hty1 : t1.turn_type = TurnType.Crosswalk)
    (hty2 : t2.turn_type = TurnType.Crosswalk)
    (hinj : ∀ t ∈ m.get_turns_in_intersection i,
      ∀ t' ∈ m.get_turns_in_intersection i, t.id = t'.id → t = t')
    (hc1 : (m.get_turns_in_intersection i).count t1 = 1)
    (hc2 : (m.get_turns_in_intersection i).count t2 = 1)
    (hne : t1 ≠ t2)
    (hdir : (m.get_l t1.id.src).dst_i = i ↔ ¬ (m.get_l t2.id.src).dst_i = i) :
    (∀ t ∈ m.get_turns_in_intersection i,
      (DrawCrosswalk.new t ∈ calculate_crosswalks i m ↔
        (t.turn_type = TurnType.Crosswalk ∧ (m.get_l t.id.src).dst_i = i))) ∧
    ((calculate_crosswalks i m).filter
        (fun cw => decide (cw.id1 = t1.id ∨ cw.id1 = t2.id))).length = 1 := by
  have hmem1 : t1 ∈ m.get_turns_in_intersection i := by
    have : 0 < (m.get_turns_in_intersection i).count t1 := by omega
    exact List.count_pos_iff.mp this
  have hmem2 : t2 ∈ m.get_turns_in_intersection i := by
    have : 0 < (m.get_turns_in_intersection i).count t2 := by omega
    exact List.count_pos_iff.mp this
  constructor
  · intro t ht
    constructor
    · intro hmemc
      obtain ⟨u, hu, hsome⟩ := List.mem_filterMap.mp hmemc
      by_cases hcond : u.turn_type = TurnType.Crosswalk ∧ (m.get_l u.id.src).dst_i = i
      · rw [if_pos hcond] at hsome
        have hid : u.id = t.id := congrArg DrawCrosswalk.id1 (Option.some_inj.mp hsome)
        have heq := hinj u hu t ht hid
        rw [heq] at hcond
        exact hcond
      · rw [if_neg hcond] at hsome
        exact absurd hsome (by simp)
    · intro hcond
      exact List.mem_filterMap.mpr ⟨t, ht, by rw [if_pos hcond]⟩
  · rw [calculate_crosswalks,
      length_filter_filterMap_if (m.get_turns_in_intersection i)
        (fun turn => turn.turn_type = TurnType.Crosswalk ∧ (m.get_l turn.id.src).dst_i = i)
        DrawCrosswalk.new
        (fun cw => decide (cw.id1 = t1.id ∨ cw.id1 = t2.id))]
    by_cases h1 : (m.get_l t1.id.src).dst_i = i
    · have h2 : ¬ (m.get_l t2.id.src).dst_i = i := hdir.mp h1
      rw [countP_eq_count_of_iff _ _ t1 ?_, hc1]
      intro a ha
      simp only [Bool.and_eq_true, Bool.or_eq_true, decide_eq_true_eq]
      constructor
      · rintro ⟨⟨hta, hda⟩, hid | hid⟩
        · exact hinj a ha t1 hmem1 hid
        · have := hinj a ha t2 hmem2 hid
          rw [this] at hda
          exact absurd hda h2
      · intro haeq
        subst haeq
        exact ⟨⟨hty1, h1⟩, Or.inl rfl⟩
    · have h2 : (m.get_l t2.id.src).dst_i = i := by
        by_contra h2
        exact h1 (hdir.mpr h2)
      rw [countP_eq_count_of_iff _ _ t2 ?_, hc2]
      intro a ha
      simp only [Bool.and_eq_true, Bool.or_eq_true, decide_eq_true_eq]
      constructor
      · rintro ⟨⟨hta, hda⟩, hid | hid⟩
        · have := hinj a ha t1 hmem1 hid
          rw [this] at hda
          exact absurd hda h1
        · exact hinj a ha t2 hmem2 hid
      · intro haeq
        subst haeq
        exact ⟨⟨hty2, h2⟩, Or.inr rfl⟩

/-- Witness for C3 at a concrete input. -/
theorem crosswalk_dedup_witness :
    (t2_c3.id.src = t1_c3.id.dst ∧ t2_c3.id.dst = t1_c3.id.src ∧
     t1_c3.turn_type = TurnType.Crosswalk ∧ t2_c3.turn_type = TurnType.Crosswalk ∧
     (∀ t ∈ map_c3.get_turns_in_intersection 0,
       ∀ t' ∈ map_c3.get_turns_in_intersection 0, t.id = t'.id → t = t') ∧
     (map_c3.get_turns_in_intersection 0).count t1_c3 = 1 ∧
     (map_c3.get_turns_in_intersection 0).count t2_c3 = 1 ∧
     t1_c3 ≠ t2_c3 ∧
     ((map_c3.get_l t1_c3.id.src).dst_i = 0 ↔ ¬ (map_c3.get_l t2_c3.id.src).dst_i = 0)) ∧
    ((∀ t ∈ map_c3.get_turns_in_intersection 0,
      (DrawCrosswalk.new t ∈ calculate_crosswalks 0 map_c3 ↔
        (t.turn_type = TurnType.Crosswalk ∧ (map_c3.get_l t.id.src).dst_i = 0))) ∧
     ((calculate_crosswalks 0 map_c3).filter
        (fun cw => decide (cw.id1 = t1_c3.id ∨ cw.id1 = t2_c3.id))).length = 1) :=
  ⟨by decide,
   crosswalk_dedup map_c3 0 t1_c3 t2_c3 (by decide) (by decide) (by decide) (by decide)
     (by decide) (by decide) (by decide) (by decide) (by decide)⟩

/-! ### Claim C4 -/

/-- Claim C4: every corner artifact has exactly four points, and for every
shared-sidewalk-corner turn passing the de-duplication filter the produced
polygon is built, in order, from the forward endpoint of the offset last
segment of the source lane, the endpoint of that segment reversed and
offset, the endpoint of the first segment of the destination lane reversed
and offset, and the forward endpoint of the offset first segment of the
destination lane, each offset by half the standard lane width. -/
theorem corner_polygon_points (m : Map) (i : ℕ) (turn : Turn)
    (hmem : turn ∈ m.get_turns_in_intersection i)
    (htype : turn.turn_type = TurnType.SharedSidewalkCorner)
    (hdst : (m.get_l turn.id.src).dst_i = i) :
    (∀ p ∈ calculate_corners i m, p.pts.length = 4) ∧
    Polygon.new
      [(m.shift (m.get_l turn.id.src).last_line (LANE_THICKNESS / 2)).pt2,
       (m.shift (m.get_l turn.id.src).last_line.reverse (LANE_THICKNESS / 2)).pt1,
       (m.shift (m.get_l turn.id.dst).first_line.reverse (LANE_THICKNESS / 2)).pt2,
       (m.shift (m.get_l turn.id.dst).first_line (LANE_THICKNESS / 2)).pt1]
      ∈ calculate_corners i m := by
  constructor
  · intro p hp
    obtain ⟨u, hu, hsome⟩ := List.mem_filterMap.mp hp
    by_cases h1 : u.turn_type = TurnType.SharedSidewalkCorner
    · rw [if_pos h1] at hsome
      by_cases h2 : (m.get_l u.id.src).dst_i ≠ i
      · rw [if_pos h2] at hsome
        exact absurd hsome (by simp)
      · rw [if_neg h2] at hsome
        have hxp := Option.some_inj.mp hsome
        rw [← hxp]
        rfl
    · rw [if_neg h1] at hsome
      exact absurd hsome (by simp)
  · refine List.mem_filterMap.mpr ⟨turn, hmem, ?_⟩
    rw [if_pos htype, if_neg (not_not_intro hdst)]

/-- Witness for C4 at a concrete input. -/
theorem corner_polygon_points_witness :
    (t_c4 ∈ map_c4.get_turns_in_intersection 0 ∧
     t_c4.turn_type = TurnType.SharedSidewalkCorner ∧
     (map_c4.get_l t_c4.id.src).dst_i = 0) ∧
    ((∀ p ∈ calculate_corners 0 map_c4, p.pts.length = 4) ∧
     Polygon.new
       [(map_c4.shift (map_c4.get_l t_c4.id.src).last_line (LANE_THICKNESS / 2)).pt2,
        (map_c4.shift (map_c4.get_l t_c4.id.src).last_line.reverse (LANE_THICKNESS / 2)).pt1,
        (map_c4.shift (map_c4.get_l t_c4.id.dst).first_line.reverse (LANE_THICKNESS / 2)).pt2,
        (map_c4.shift (map_c4.get_l t_c4.id.dst).first_line (LANE_THICKNESS / 2)).pt1]
       ∈ calculate_corners 0 map_c4) :=
  ⟨by decide, corner_polygon_points map_c4 0 t_c4 (by decide) (by decide) (by decide)⟩

/-! ### Claim C5 -/

/-- Claim C5: a signal with k cycles produces exactly k label rows; the
panel background is a rectangle of height (padding + intersection height)
times k times zoom whose left edge sits at the viewport width minus the
total panel width (intersection width times zoom, plus the maximum label
width, plus the fixed margin); the highlighted one-row-high rectangle sits
at row index current_cycle. -/
theorem diagram_layout (i current_cycle : ℕ) (time_left : Option ℚ)
    (y1_screen : ℚ) (g0 : Frame) (ctx : Ctx)
    (hk : (ctx.map.get_traffic_signal i).cycles ≠ []) :
    (draw_signal_diagram i current_cycle time_left y1_screen g0 ctx).panicked = none ∧
    (screen_texts
        (draw_signal_diagram i current_cycle time_left y1_screen g0 ctx).cmds).length
      = (ctx.map.get_traffic_signal i).cycles.length ∧
    (draw_signal_diagram i current_cycle time_left y1_screen g0 ctx).cmds.take 3 =
      [DrawCmd.forkScreenspaceCmd,
       DrawCmd.polygon "signal editor panel"
         (Polygon.rectangle_topleft
           ⟨ctx.canvas.window_width - diagram_panel_width ctx i current_cycle time_left,
            y1_screen⟩
           (diagram_panel_width ctx i current_cycle time_left)
           ((5 + ((intersectionBounds ctx i).max_y - (intersectionBounds ctx i).min_y))
             * ((ctx.map.get_traffic_signal i).cycles.length : ℚ) * 10)),
       DrawCmd.polygon "current cycle in signal editor panel"
         (Polygon.rectangle_topleft
           ⟨ctx.canvas.window_width - diagram_panel_width ctx i current_cycle time_left,
            y1_screen
              + (5 + ((intersectionBounds ctx i).max_y - (intersectionBounds ctx i).min_y))
                * (current_cycle : ℚ) * 10⟩
           (diagram_panel_width ctx i current_cycle time_left)
           ((5 + ((intersectionBounds ctx i).max_y - (intersectionBounds ctx i).min_y))
             * 10))] := by
  rw [draw_signal_diagram_eq i current_cycle time_left y1_screen g0 ctx hk]
  refine ⟨rfl, ?_, rfl⟩
  dsimp only
  rw [screen_texts_append, screen_texts_append, screen_texts_rows]
  simp [screen_texts, diagram_labels_length]

/-- Witness for C5 at the concrete two-cycle input of the spec example. -/
theorem diagram_layout_witness :
    ((mk_ctx map_two_cycles).map.get_traffic_signal 0).cycles ≠ [] ∧
    ((draw_signal_diagram 0 0 (some 4) 7 Frame.screenFrame
        (mk_ctx map_two_cycles)).panicked = none ∧
     (screen_texts (draw_signal_diagram 0 0 (some 4) 7 Frame.screenFrame
        (mk_ctx map_two_cycles)).cmds).length
       = ((mk_ctx map_two_cycles).map.get_traffic_signal 0).cycles.length ∧
     (draw_signal_diagram 0 0 (some 4) 7 Frame.screenFrame
        (mk_ctx map_two_cycles)).cmds.take 3 =
      [DrawCmd.forkScreenspaceCmd,
       DrawCmd.polygon "signal editor panel"
         (Polygon.rectangle_topleft
           ⟨(mk_ctx map_two_cycles).canvas.window_width
              - diagram_panel_width (mk_ctx map_two_cycles) 0 0 (some 4), 7⟩
           (diagram_panel_width (mk_ctx map_two_cycles) 0 0 (some 4))
           ((5 + ((intersectionBounds (mk_ctx map_two_cycles) 0).max_y
                  - (intersectionBounds (mk_ctx map_two_cycles) 0).min_y))
             * (((mk_ctx map_two_cycles).map.get_traffic_signal 0).cycles.length : ℚ)
             * 10)),
       DrawCmd.polygon "current cycle in signal editor panel"
         (Polygon.rectangle_topleft
           ⟨(mk_ctx map_two_cycles).canvas.window_width
              - diagram_panel_width (mk_ctx map_two_cycles) 0 0 (some 4),
            7 + (5 + ((intersectionBounds (mk_ctx map_two_cycles) 0).max_y
                      - (intersectionBounds (mk_ctx map_two_cycles) 0).min_y))
                * ((0 : ℕ) : ℚ) * 10⟩
           (diagram_panel_width (mk_ctx map_two_cycles) 0 0 (some 4))
           ((5 + ((intersectionBounds (mk_ctx map_two_cycles) 0).max_y
                  - (intersectionBounds (mk_ctx map_two_cycles) 0).min_y)) * 10))]) :=
  ⟨by decide,
   diagram_layout 0 0 (some 4) 7 Frame.screenFrame (mk_ctx map_two_cycles) (by decide)⟩

/-! ### Claim C6 -/

/-- The row labels drawn by a non-panicking draw_signal_diagram call are
exactly the built label list, in order. -/
theorem screen_texts_diagram (i current_cycle : ℕ) (time_left : Option ℚ)
    (y1_screen : ℚ) (g0 : Frame) (ctx : Ctx)
    (hk : (ctx.map.get_traffic_signal i).cycles ≠ []) :
    screen_texts (draw_signal_diagram i current_cycle time_left y1_screen g0 ctx).cmds
      = diagram_labels ctx (ctx.map.get_traffic_signal i).cycles current_cycle
          time_left := by
  rw [draw_signal_diagram_eq i current_cycle time_left y1_screen g0 ctx hk]
  dsimp only
  rw [screen_texts_append, screen_texts_append, screen_texts_rows]
  simp only [screen_texts, List.filterMap_cons, List.filterMap_nil,
    List.nil_append, List.append_nil]
  exact List.map_fst_zip _ _ (le_of_eq (diagram_labels_length _ _ _ _))

theorem diagram_labels_get_overtime (ctx : Ctx) (cycles : List Cycle)
    (cc : ℕ) (t : ℚ) (hcc : cc < cycles.length) (ht : t < 0) :
    (diagram_labels ctx cycles cc (some t)).get? cc =
      some (Text.append (Text.from_line ("Cycle " ++ toString (cc + 1) ++ ": "))
        "OVERTIME" (some "signal overtime")) := by
  obtain ⟨c, hc⟩ : ∃ c, cycles.get? cc = some c := by
    rw [List.get?_eq_get hcc]
    exact ⟨_, rfl⟩
  simp only [diagram_labels, List.get?_map, enum_from_get?, hc, Nat.zero_add,
    Option.map_some']
  simp [ht]

/-- Claim C6: when the supplied remaining time is negative, the label drawn
at row current_cycle is the string "Cycle n: " followed by the literal
OVERTIME span in the alert color, whatever the negative magnitude. -/
theorem overtime_label (i current_cycle : ℕ) (t : ℚ) (y1_screen : ℚ)
    (g0 : Frame) (ctx : Ctx)
    (hcc : current_cycle < (ctx.map.get_traffic_signal i).cycles.length)
    (ht : t < 0) :
    (screen_texts (draw_signal_diagram i current_cycle (some t) y1_screen g0
        ctx).cmds).get? current_cycle
      = some (Text.append
          (Text.from_line ("Cycle " ++ toString (current_cycle + 1) ++ ": "))
          "OVERTIME" (some "signal overtime")) := by
  have hk : (ctx.map.get_traffic_signal i).cycles ≠ [] := by
    intro h0
    rw [h0] at hcc
    exact absurd hcc (by simp)
  rw [screen_texts_diagram i current_cycle (some t) y1_screen g0 ctx hk]
  exact diagram_labels_get_overtime ctx _ current_cycle t hcc ht

/-- Witness for C6 at a concrete input with remaining time minus three. -/
theorem overtime_label_witness :
    (0 < ((mk_ctx map_two_cycles).map.get_traffic_signal 0).cycles.length ∧
     (-3 : ℚ) < 0) ∧
    (screen_texts (draw_signal_diagram 0 0 (some (-3)) 7 Frame.screenFrame
        (mk_ctx map_two_cycles)).cmds).get? 0
      = some (Text.append (Text.from_line ("Cycle " ++ toString (0 + 1) ++ ": "))
          "OVERTIME" (some "signal overtime")) :=
  ⟨⟨by decide, by decide⟩,
   overtime_label 0 0 (-3) 7 Frame.screenFrame (mk_ctx map_two_cycles)
     (by decide) (by decide)⟩

/-! ### Claim C7 -/

/-- Claim C7: a crosswalk artifact of the parent intersection is drawn by
draw_signal_cycle, in the crosswalk color, exactly when the cycle gives its
turn Priority status; a crosswalk whose turn has merely Yield status is
never drawn. -/
theorem crosswalk_drawn_iff_priority (cycle : Cycle) (ctx : Ctx)
    (cw : DrawCrosswalk) (hcw : cw ∈ Ctx.draw_map_crosswalks ctx cycle.parent) :
    (DrawCmd.crosswalkStrip cw.id1 "crosswalk" ∈ draw_signal_cycle cycle ctx ↔
      cycle.get_priority cw.id1 = TurnPriority.Priority) ∧
    (cycle.get_priority cw.id1 = TurnPriority.Yield →
      DrawCmd.crosswalkStrip cw.id1 "crosswalk" ∉ draw_signal_cycle cycle ctx) := by
  have hiff : DrawCmd.crosswalkStrip cw.id1 "crosswalk" ∈ draw_signal_cycle cycle ctx ↔
      cycle.get_priority cw.id1 = TurnPriority.Priority := by
    constructor
    · intro hmem
      simp only [draw_signal_cycle, List.mem_append, List.mem_filterMap] at hmem
      rcases hmem with (⟨cw2, hcw2, hsome⟩ | ⟨u, hu, hsome⟩) | ⟨u, hu, hsome⟩
      · by_cases hpri : cycle.get_priority cw2.id1 = TurnPriority.Priority
        · rw [if_pos hpri] at hsome
          have hinj := Option.some_inj.mp hsome
          injection hinj with h1 h2
          rwa [h1] at hpri
        · rw [if_neg hpri] at hsome
          exact absurd hsome (by simp)
      · split at hsome <;> simp at hsome
      · split at hsome <;> simp at hsome
    · intro hpri
      apply List.mem_append_left
      apply List.mem_append_left
      exact List.mem_filterMap.mpr ⟨cw, hcw, by rw [if_pos hpri]⟩
  refine ⟨hiff, fun hy hmem => ?_⟩
  have hp := hiff.mp hmem
  rw [hp] at hy
  exact absurd hy (by simp)

/-- Witness for C7 at a concrete input. -/
theorem crosswalk_drawn_iff_priority_witness :
    DrawCrosswalk.new t1_c3 ∈ Ctx.draw_map_crosswalks (mk_ctx map_c3) cyc_c7.parent ∧
    ((DrawCmd.crosswalkStrip (DrawCrosswalk.new t1_c3).id1 "crosswalk"
        ∈ draw_signal_cycle cyc_c7 (mk_ctx map_c3) ↔
      cyc_c7.get_priority (DrawCrosswalk.new t1_c3).id1 = TurnPriority.Priority) ∧
     (cyc_c7.get_priority (DrawCrosswalk.new t1_c3).id1 = TurnPriority.Yield →
      DrawCmd.crosswalkStrip (DrawCrosswalk.new t1_c3).id1 "crosswalk"
        ∉ draw_signal_cycle cyc_c7 (mk_ctx map_c3))) :=
  ⟨by decide,
   crosswalk_drawn_iff_priority cyc_c7 (mk_ctx map_c3) (DrawCrosswalk.new t1_c3)
     (by decide)⟩

/-! ### Claim C8 -/

/-- Claim C8: a turn classified between sidewalks is never painted as a
protected (solid) or yielding (dashed) turn path by draw_signal_cycle, even
when it appears in the priority or yield set of the cycle. -/
theorem sidewalk_turns_not_painted (cycle : Cycle) (ctx : Ctx) (t : TurnID)
    (hwf : ∀ tid, (ctx.map.get_t tid).id = tid)
    (hmem : t ∈ cycle.priority_turns ∨ t ∈ cycle.yield_turns)
    (hsw : (ctx.map.get_t t).between_sidewalks = true) :
    ∀ col, DrawCmd.turnFull t col ∉ draw_signal_cycle cycle ctx ∧
           DrawCmd.turnDashed t col ∉ draw_signal_cycle cycle ctx := by
  intro col
  constructor
  · intro hmemc
    simp only [draw_signal_cycle, List.mem_append, List.mem_filterMap] at hmemc
    rcases hmemc with (⟨cw, hcw, hsome⟩ | ⟨u, hu, hsome⟩) | ⟨u, hu, hsome⟩
    · split at hsome <;> simp at hsome
    · by_cases hb : (ctx.map.get_t u).between_sidewalks = false
      · rw [if_pos hb] at hsome
        have hinj := Option.some_inj.mp hsome
        injection hinj with h1 h2
        have hut : u = t := (hwf u).symm.trans h1
        rw [hut, hsw] at hb
        simp at hb
      · rw [if_neg hb] at hsome
        simp at hsome
    · split at hsome <;> simp at hsome
  · intro hmemc
    simp only [draw_signal_cycle, List.mem_append, List.mem_filterMap] at hmemc
    rcases hmemc with (⟨cw, hcw, hsome⟩ | ⟨u, hu, hsome⟩) | ⟨u, hu, hsome⟩
    · split at hsome <;> simp at hsome
    · split at hsome <;> simp at hsome
    · by_cases hb : (ctx.map.get_t u).between_sidewalks = false
      · rw [if_pos hb] at hsome
        have hinj := Option.some_inj.mp hsome
        injection hinj with h1 h2
        have hut : u = t := (hwf u).symm.trans h1
        rw [hut, hsw] at hb
        simp at hb
      · rw [if_neg hb] at hsome
        simp at hsome

/-- Witness for C8 at a concrete input. -/
theorem sidewalk_turns_not_painted_witness :
    ((∀ tid, ((mk_ctx map_c8).map.get_t tid).id = tid) ∧
     ((⟨0, 1, 2⟩ : TurnID) ∈ cyc_c8.priority_turns ∨
      (⟨0, 1, 2⟩ : TurnID) ∈ cyc_c8.yield_turns) ∧
     ((mk_ctx map_c8).map.get_t ⟨0, 1, 2⟩).between_sidewalks = true) ∧
    (∀ col, DrawCmd.turnFull ⟨0, 1, 2⟩ col ∉ draw_signal_cycle cyc_c8 (mk_ctx map_c8) ∧
            DrawCmd.turnDashed ⟨0, 1, 2⟩ col ∉ draw_signal_cycle cyc_c8 (mk_ctx map_c8)) :=
  ⟨⟨fun _ => rfl, by decide, by decide⟩,
   sidewalk_turns_not_painted cyc_c8 (mk_ctx map_c8) ⟨0, 1, 2⟩ (fun _ => rfl)
     (by decide) (by decide)⟩

/-! ### Claim C9 -/

theorem textmap_filter_length (verts : List Pt2D) (n : ℕ) (v : Pt2D) :
    (((enum_from n verts).map (fun p =>
        DrawCmd.textMap (Text.from_line (toString (p.1 + 1))) p.2)).filter
      (fun c => decide (text_map_pos c = some v))).length = verts.count v := by
  induction verts generalizing n with
  | nil => rfl
  | cons a as ih =>
    simp only [enum_from, List.map_cons, List.filter_cons, List.count_cons]
    have hhead : decide (text_map_pos
        (DrawCmd.textMap (Text.from_line (toString (n + 1))) a) = some v)
        = decide (a = v) := by
      simp [text_map_pos]
    rw [hhead]
    by_cases hv : a = v
    · rw [if_pos (by simp [hv]), if_pos (show (a == v) = true by simp [hv]),
        List.length_cons, ih]
    · rw [if_neg (by simp [hv]), if_neg (show ¬ (a == v) = true by simp [hv]), ih]
      omega

theorem textmap_mem (verts : List Pt2D) (j : ℕ) (hj : j < verts.length) :
    DrawCmd.textMap (Text.from_line (toString (j + 1))) (verts.get ⟨j, hj⟩)
      ∈ (enum_from 0 verts).map (fun p =>
          DrawCmd.textMap (Text.from_line (toString (p.1 + 1))) p.2) := by
  have hmem := enum_from_mem_of_get 0 verts j hj
  rw [Nat.zero_add] at hmem
  exact List.mem_map.mpr ⟨(j, verts.get ⟨j, hj⟩), hmem, rfl⟩

/-- Claim C9, as stated, is false: the first ring vertex (1-based index 1 in
the footprint ring) is labelled with the vertex count, not with 1; at this
concrete two-vertex ring the label drawn at the first vertex is the string
2 and no label 1 is drawn there. -/
theorem debug_vertex_label_cx :
    DrawCmd.textMap (Text.from_line "2") ⟨0, 0⟩
      ∈ DrawIntersection.draw di_c9 opts_dbg (mk_ctx map_c9) ∧
    DrawCmd.textMap (Text.from_line "1") ⟨0, 0⟩
      ∉ DrawIntersection.draw di_c9 opts_dbg (mk_ctx map_c9) := by decide

/-- Claim C9 (amended): in debug mode the draw call emits exactly the
footprint fill followed by the vertex labels, one per ring point after the
first; provided the non-duplicate vertices are pairwise distinct, exactly
one label is drawn at every non-duplicate vertex, with the labels equal to
the 1-based position in the ring traversal that starts at the second ring
point and ends at the duplicated closing point (so the first ring vertex
receives the vertex count, not 1); nothing of the normal markings and
detail layer is drawn in this mode: every command after the footprint fill
is a vertex label, so no sidewalk-corner fill, no crosswalk strip and no
turn path appears. -/
theorem debug_vertex_labels (self : DrawIntersection) (opts : RenderOptions)
    (ctx : Ctx) (hdbg : opts.debug_mode = true)
    (hnd : ((ctx.map.get_i self.id).polygon.drop 1).Nodup) :
    DrawIntersection.draw self opts ctx =
      DrawCmd.polygon (opts.color.getD (match self.intersection_type with
        | IntersectionType.Border => "border intersection"
        | IntersectionType.StopSign => "stop sign intersection"
        | IntersectionType.TrafficSignal => "traffic signal intersection")) self.polygon
      :: (enum_from 0 ((ctx.map.get_i self.id).polygon.drop 1)).map (fun p =>
          DrawCmd.textMap (Text.from_line (toString (p.1 + 1))) p.2) ∧
    (∀ j, ∀ hj : j < ((ctx.map.get_i self.id).polygon.drop 1).length,
      ((DrawIntersection.draw self opts ctx).filter
          (fun c => decide (text_map_pos c
            = some (((ctx.map.get_i self.id).polygon.drop 1).get ⟨j, hj⟩)))).length = 1 ∧
      DrawCmd.textMap (Text.from_line (toString (j + 1)))
          (((ctx.map.get_i self.id).polygon.drop 1).get ⟨j, hj⟩)
        ∈ DrawIntersection.draw self opts ctx) ∧
    (∀ c ∈ (DrawIntersection.draw self opts ctx).drop 1,
      ∃ txt pt, c = DrawCmd.textMap txt pt) ∧
    (∀ tid col,
      DrawCmd.crosswalkStrip tid col ∉ DrawIntersection.draw self opts ctx ∧
      DrawCmd.turnFull tid col ∉ DrawIntersection.draw self opts ctx ∧
      DrawCmd.turnDashed tid col ∉ DrawIntersection.draw self opts ctx) := by
  have hdraw : DrawIntersection.draw self opts ctx =
      DrawCmd.polygon (opts.color.getD (match self.intersection_type with
        | IntersectionType.Border => "border intersection"
        | IntersectionType.StopSign => "stop sign intersection"
        | IntersectionType.TrafficSignal => "traffic signal intersection")) self.polygon
      :: (enum_from 0 ((ctx.map.get_i self.id).polygon.drop 1)).map (fun p =>
          DrawCmd.textMap (Text.from_line (toString (p.1 + 1))) p.2) := by
    rw [DrawIntersection.draw, if_pos hdbg]
  refine ⟨hdraw, ?_, ?_, ?_⟩
  · intro j hj
    constructor
    · rw [hdraw, List.filter_cons]
      have hhead : (decide (text_map_pos
          (DrawCmd.polygon (opts.color.getD (match self.intersection_type with
            | IntersectionType.Border => "border intersection"
            | IntersectionType.StopSign => "stop sign intersection"
            | IntersectionType.TrafficSignal => "traffic signal intersection"))
            self.polygon)
          = some (((ctx.map.get_i self.id).polygon.drop 1).get ⟨j, hj⟩))) = false := by
        simp [text_map_pos]
      rw [hhead]
      rw [if_neg (by simp), textmap_filter_length]
      exact List.count_eq_one_of_mem hnd (List.get_mem _ j hj)
    · rw [hdraw]
      exact List.mem_cons_of_mem _ (textmap_mem _ j hj)
  · intro c hc
    rw [hdraw] at hc
    simp only [List.drop_succ_cons, List.drop_zero] at hc
    obtain ⟨p, hp, heq⟩ := List.mem_map.mp hc
    exact ⟨_, _, heq.symm⟩
  · intro tid col
    refine ⟨?_, ?_, ?_⟩ <;>
    · intro hmem
      rw [hdraw] at hmem
      rcases List.mem_cons.mp hmem with h | h
      · exact absurd h (by simp)
      · obtain ⟨p, hp, heq⟩ := List.mem_map.mp h
        exact absurd heq (by simp)

/-- Witness for C9 at a concrete input. -/
theorem debug_vertex_labels_witness :
    (opts_dbg.debug_mode = true ∧
     (((mk_ctx map_c9).map.get_i di_c9.id).polygon.drop 1).Nodup) ∧
    (DrawIntersection.draw di_c9 opts_dbg (mk_ctx map_c9) =
      DrawCmd.polygon (opts_dbg.color.getD (match di_c9.intersection_type with
        | IntersectionType.Border => "border intersection"
        | IntersectionType.StopSign => "stop sign intersection"
        | IntersectionType.TrafficSignal => "traffic signal intersection"))
        di_c9.polygon
      :: (enum_from 0 (((mk_ctx map_c9).map.get_i di_c9.id).polygon.drop 1)).map
          (fun p => DrawCmd.textMap (Text.from_line (toString (p.1 + 1))) p.2) ∧
     (∀ j, ∀ hj : j < (((mk_ctx map_c9).map.get_i di_c9.id).polygon.drop 1).length,
      ((DrawIntersection.draw di_c9 opts_dbg (mk_ctx map_c9)).filter
          (fun c => decide (text_map_pos c
            = some ((((mk_ctx map_c9).map.get_i di_c9.id).polygon.drop 1).get
                ⟨j, hj⟩)))).length = 1 ∧
      DrawCmd.textMap (Text.from_line (toString (j + 1)))
          ((((mk_ctx map_c9).map.get_i di_c9.id).polygon.drop 1).get ⟨j, hj⟩)
        ∈ DrawIntersection.draw di_c9 opts_dbg (mk_ctx map_c9)) ∧
     (∀ c ∈ (DrawIntersection.draw di_c9 opts_dbg (mk_ctx map_c9)).drop 1,
      ∃ txt pt, c = DrawCmd.textMap txt pt) ∧
     (∀ tid col,
      DrawCmd.crosswalkStrip tid col ∉ DrawIntersection.draw di_c9 opts_dbg (mk_ctx map_c9) ∧
      DrawCmd.turnFull tid col ∉ DrawIntersection.draw di_c9 opts_dbg (mk_ctx map_c9) ∧
      DrawCmd.turnDashed tid col ∉ DrawIntersection.draw di_c9 opts_dbg (mk_ctx map_c9))) :=
  ⟨⟨by decide, by decide⟩,
   debug_vertex_labels di_c9 opts_dbg (mk_ctx map_c9) (by decide) (by decide)⟩

/-! ### Claim C10 -/

/-- Claim C10: on a traffic-signal intersection at markings zoom with detail
suppression off and debug off, when the simulation reports overtime the draw
call emits only the footprint and the sidewalk corners: no cycle crosswalk
and no turn path is drawn. -/
theorem overtime_blank_overlay (self : DrawIntersection) (opts : RenderOptions)
    (ctx : Ctx)
    (htype : self.intersection_type = IntersectionType.TrafficSignal)
    (hdbg : opts.debug_mode = false)
    (hzoom : MIN_ZOOM_FOR_MARKINGS ≤ ctx.canvas.cam_zoom)
    (hsup : ctx.hints.suppress_traffic_signal_details ≠ some self.id)
    (hover : ctx.sim.is_in_overtime self.id = true) :
    DrawIntersection.draw self opts ctx =
      DrawCmd.polygon (opts.color.getD "traffic signal intersection") self.polygon
        :: self.sidewalk_corners.map
            (fun corner => DrawCmd.polygon "sidewalk corner" corner) := by
  simp only [DrawIntersection.draw, DrawIntersection.draw_traffic_signal, htype,
    hdbg, hover]
  simp [hzoom, hsup]

/-- Witness for C10 at a concrete input. -/
theorem overtime_blank_overlay_witness :
    (di_c10.intersection_type = IntersectionType.TrafficSignal ∧
     opts_plain.debug_mode = false ∧
     MIN_ZOOM_FOR_MARKINGS ≤ ctx_c10.canvas.cam_zoom ∧
     ctx_c10.hints.suppress_traffic_signal_details ≠ some di_c10.id ∧
     ctx_c10.sim.is_in_overtime di_c10.id = true) ∧
    DrawIntersection.draw di_c10 opts_plain ctx_c10 =
      DrawCmd.polygon (opts_plain.color.getD "traffic signal intersection") di_c10.polygon
        :: di_c10.sidewalk_corners.map
            (fun corner => DrawCmd.polygon "sidewalk corner" corner) :=
  ⟨⟨by decide, by decide, by decide, by decide, by decide⟩,
   overtime_blank_overlay di_c10 opts_plain ctx_c10 (by decide) (by decide)
     (by decide) (by decide) (by decide)⟩

end AbStreet
